import Mathlib

/-!
Verification of the policy_crew RAG decision core against its specification.

The development shallowly embeds the relevant Python modules:
* `Sha256` — SHA-256 over byte lists (used by the configuration fingerprint),
  transcribed from FIPS 180-4 as invoked by `hashlib.sha256`.
* `RagConfig` — `src/rag_config.py`: required-key validation and the
  configuration content hash (`json.dumps(config, sort_keys=True)` + SHA-256).
* `Rerank` — `src/reranking_tool.py`: score normalization, lexical overlap,
  and the four-gate acceptance cascade of `ReRankingTool._run`.
* `Harness` — `src/rag_harness.py`: aggregate evaluation metrics, Phase A
  grid down-sampling, and the Phase B best-configuration bookkeeping of
  `RAGHarness.tune`.

Machine floats are modelled as real numbers (ℝ) in the re-ranking pipeline
(where the logistic transform needs `Real.exp`) and as rationals (ℚ) where the
code only performs field operations and comparisons.  A non-finite float
(NaN/inf) is modelled as `none : Option ℝ`, a finite one as `some x`.
-/

/-! ## SHA-256 (FIPS 180-4), as used by `hashlib.sha256` -/

namespace Sha256

/-- Truncate to a 32-bit word. -/
def w32 (n : Nat) : Nat := n % 4294967296

/-- Right rotation of a 32-bit word by `n` bits. -/
def rotr (n x : Nat) : Nat := w32 ((x >>> n) ||| (x <<< (32 - n)))

/-- Logical right shift. -/
def shr (n x : Nat) : Nat := x >>> n

/-- The 64 round constants. -/
def K : List Nat :=
  [1116352408, 1899447441, 3049323471, 3921009573, 961987163, 1508970993,
   2453635748, 2870763221, 3624381080, 310598401, 607225278, 1426881987,
   1925078388, 2162078206, 2614888103, 3248222580, 3835390401, 4022224774,
   264347078, 604807628, 770255983, 1249150122, 1555081692, 1996064986,
   2554220882, 2821834349, 2952996808, 3210313671, 3336571891, 3584528711,
   113926993, 338241895, 666307205, 773529912, 1294757372, 1396182291,
   1695183700, 1986661051, 2177026350, 2456956037, 2730485921, 2820302411,
   3259730800, 3345764771, 3516065817, 3600352804, 4094571909, 275423344,
   430227734, 506948616, 659060556, 883997877, 958139571, 1322822218,
   1537002063, 1747873779, 1955562222, 2024104815, 2227730452, 2361852424,
   2428436474, 2756734187, 3204031479, 3329325298]

/-- The initial hash value. -/
def H0 : List Nat :=
  [1779033703, 3144134277, 1013904242, 2773480762, 1359893119, 2600822924,
   528734635, 1541459225]

/-- Pad a byte message: append `0x80`, zeros to 56 mod 64, then the bit
length as eight big-endian bytes. -/
def pad (msg : List Nat) : List Nat :=
  let bitLen := 8 * msg.length
  let zeros := (55 + 64 - (msg.length % 64)) % 64
  msg ++ [128] ++ List.replicate zeros 0 ++
    (List.range 8).map (fun i => (bitLen >>> (8 * (7 - i))) % 256)

/-- Group bytes into big-endian 32-bit words. -/
def toWords : List Nat → List Nat
  | b0 :: b1 :: b2 :: b3 :: rest =>
      ((b0 <<< 24) ||| (b1 <<< 16) ||| (b2 <<< 8) ||| b3) :: toWords rest
  | _ => []

/-- Split a word list into 16-word blocks. -/
def splitBlocks : List Nat → List (List Nat)
  | [] => []
  | a :: rest =>
      (a :: rest).take 16 :: splitBlocks ((a :: rest).drop 16)
termination_by l => l.length
decreasing_by simp [List.length_drop]; omega

/-- Extend a 16-word block with `n` further schedule words. -/
def extendW : Nat → List Nat → List Nat
  | 0, acc => acc
  | n + 1, acc =>
      let t := acc.length
      let w15 := acc.getD (t - 15) 0
      let w2 := acc.getD (t - 2) 0
      let s0 := (rotr 7 w15) ^^^ (rotr 18 w15) ^^^ (shr 3 w15)
      let s1 := (rotr 17 w2) ^^^ (rotr 19 w2) ^^^ (shr 10 w2)
      extendW n (acc ++ [w32 (acc.getD (t - 16) 0 + s0 + acc.getD (t - 7) 0 + s1)])

/-- One compression round on the eight working variables. -/
def step (st : List Nat) (kw : Nat × Nat) : List Nat :=
  match st with
  | [a, b, c, d, e, f, g, h] =>
      let s1 := (rotr 6 e) ^^^ (rotr 11 e) ^^^ (rotr 25 e)
      let ch := (e &&& f) ^^^ ((4294967295 ^^^ e) &&& g)
      let temp1 := w32 (h + s1 + ch + kw.1 + kw.2)
      let s0 := (rotr 2 a) ^^^ (rotr 13 a) ^^^ (rotr 22 a)
      let maj := (a &&& b) ^^^ (a &&& c) ^^^ (b &&& c)
      let temp2 := w32 (s0 + maj)
      [w32 (temp1 + temp2), a, b, c, w32 (d + temp1), e, f, g]
  | other => other

/-- Compress one 16-word block into the running hash. -/
def compressBlock (h : List Nat) (block : List Nat) : List Nat :=
  let w := extendW 48 block
  let final := (K.zip w).foldl step h
  List.zipWith (fun x y => w32 (x + y)) h final

/-- Full SHA-256 over a byte list, producing the eight hash words. -/
def hashWords (msg : List Nat) : List Nat :=
  (splitBlocks (toWords (pad msg))).foldl compressBlock H0

/-- A single lowercase hex digit. -/
def hexDigit (n : Nat) : Char :=
  if n < 10 then Char.ofNat (48 + n) else Char.ofNat (87 + n)

/-- Lowercase hex rendering of a 32-bit word. -/
def wordHex (w : Nat) : String :=
  String.mk ((List.range 8).map (fun i => hexDigit ((w >>> (4 * (7 - i))) % 16)))

/-- `hashlib.sha256(bytes).hexdigest()`. -/
def hexdigest (msg : List Nat) : String :=
  String.join ((hashWords msg).map wordHex)

/-- UTF-8 bytes of a string, as `str.encode` produces. -/
def stringBytes (s : String) : List Nat :=
  s.toUTF8.toList.map (fun b => b.toNat)

end Sha256

/-! ## Configuration loading and fingerprinting (`src/rag_config.py`) -/

namespace RagConfig

/-- Primitive configuration values as they occur in the YAML schema
(strings, numbers, booleans, null, string lists such as `loader.globs`). -/
inductive PrimVal
  | pstr (s : String)
  | pnum (q : ℚ)
  | pbool (b : Bool)
  | pnull
  | plist (xs : List String)
  deriving DecidableEq

/-- A configuration section: a string-keyed mapping of primitive values,
modelled as an association list in insertion order. -/
abbrev SectionMap := List (String × PrimVal)

/-- A configuration: a string-keyed mapping of sections in insertion order. -/
abbrev ConfigMap := List (String × SectionMap)

/-- `REQUIRED_CONFIG_KEYS`, in the source's declaration (iteration) order. -/
def REQUIRED_CONFIG_KEYS : List (String × List String) :=
  [("paths", ["kb_dir", "index_dir", "results_dir"]),
   ("loader", ["globs", "exclude", "max_files"]),
   ("splitter", ["chunk_size", "chunk_overlap"]),
   ("embedder", ["backend", "model", "base_url", "use_gpu", "batch_size", "cosine_floor"]),
   ("vector_store", ["type", "persist"]),
   ("retriever", ["strategy", "k", "mmr_lambda"]),
   ("reranker", ["model", "device", "max_length", "batch_size"]),
   ("gating", ["tau", "delta", "ratio", "min_overlap", "keep_within", "top_k_return"]),
   ("preflight", ["force_cpu_embeddings", "force_cpu_reranker", "skip_ollama"])]

/-- The validation error raised by `_validate_config` (a `ValueError` whose
message names one missing section or one missing key). -/
inductive ConfigError
  | missingSection (s : String)
  | missingKey (s k : String)
  deriving DecidableEq

/-- The inner key loop of `_validate_config`: raises on the first required
key absent from the section. -/
def checkKeys (s : String) (sec : SectionMap) : List String → Except ConfigError Unit
  | [] => .ok ()
  | k :: ks =>
      if (sec.lookup k).isSome then checkKeys s sec ks
      else .error (.missingKey s k)

/-- The section loop of `_validate_config`: for each required section in
order, raise if the section is absent, then check its keys. -/
def validateGo (config : ConfigMap) : List (String × List String) → Except ConfigError Unit
  | [] => .ok ()
  | (s, keys) :: rest =>
      match config.lookup s with
      | none => .error (.missingSection s)
      | some sec =>
          match checkKeys s sec keys with
          | .ok _ => validateGo config rest
          | .error e => .error e

/-- `_validate_config(config)`: validate all required sections and keys,
raising at the first missing one. -/
def validate_config (config : ConfigMap) : Except ConfigError Unit :=
  validateGo config REQUIRED_CONFIG_KEYS

/-- Whether a required section is present with all its required keys. -/
def sectionComplete (config : ConfigMap) (p : String × List String) : Bool :=
  match config.lookup p.1 with
  | none => false
  | some sec => p.2.all (fun k => (sec.lookup k).isSome)

/-- Sort an association list by key, as `json.dumps(…, sort_keys=True)`
orders mapping keys.  Python's `sorted` is a stable ascending sort. -/
def sortByKey {α : Type} (l : List (String × α)) : List (String × α) :=
  List.insertionSort (fun a b => a.1 ≤ b.1) l

/-- JSON rendering of a string (modelled without escape sequences, which do
not occur in configuration keys or values here). -/
def jstr (s : String) : String := "\"" ++ s ++ "\""

/-- JSON rendering of a number, modelled as an exact rational. -/
def jnum (q : ℚ) : String := toString q.num ++ "/" ++ toString q.den

/-- JSON rendering of a primitive value. -/
def dumpsPrim : PrimVal → String
  | .pstr s => jstr s
  | .pnum q => jnum q
  | .pbool b => if b then "true" else "false"
  | .pnull => "null"
  | .plist xs => "[" ++ String.intercalate ", " (xs.map jstr) ++ "]"

/-- JSON rendering of a section with sorted keys. -/
def dumpsSection (sec : SectionMap) : String :=
  "\x7b" ++ String.intercalate ", "
    ((sortByKey sec).map (fun kv => jstr kv.1 ++ ": " ++ dumpsPrim kv.2)) ++ "\x7d"

/-- `json.dumps(config, sort_keys=True)`: render the configuration with all
mapping keys sorted. -/
def dumpsConfig (c : ConfigMap) : String :=
  "\x7b" ++ String.intercalate ", "
    ((sortByKey c).map (fun kv => jstr kv.1 ++ ": " ++ dumpsSection kv.2)) ++ "\x7d"

/-- `_compute_config_sha(config)`: SHA-256 of the sorted-key JSON dump. -/
def compute_config_sha (c : ConfigMap) : String :=
  Sha256.hexdigest (Sha256.stringBytes (dumpsConfig c))

end RagConfig

/-! ## Re-ranking and gate cascade (`src/reranking_tool.py`) -/

namespace Rerank

/-- The stop-word set `STOP` (the entry written `it's` in the source can
never match a token, since tokens contain only `[a-z0-9]`). -/
def STOP : List String :=
  ["a", "an", "the", "and", "or", "not", "for", "to", "of", "in", "on",
   "with", "from", "by", "as", "at", "into", "over", "under", "up", "down",
   "is", "are", "was", "were", "be", "been", "being", "do", "does", "did",
   "this", "that", "these", "those", "it", "its", "it\x27s"]

/-- ASCII lower-casing of one character, as `str.lower` acts on the ASCII
range appearing in queries and documents. -/
def lowerChar (c : Char) : Char :=
  if 'A' ≤ c ∧ c ≤ 'Z' then Char.ofNat (c.toNat + 32) else c

/-- Whether a (lower-cased) character matches the token class `[a-z0-9]`. -/
def isTokChar (c : Char) : Bool :=
  ('a' ≤ c && c ≤ 'z') || ('0' ≤ c && c ≤ '9')

/-- Split a character list into the maximal runs matched by the regular
expression `[a-z0-9]+`, accumulating the current run in reverse. -/
def tokenRuns : List Char → List Char → List String
  | [], acc => if acc.isEmpty then [] else [String.mk acc.reverse]
  | c :: cs, acc =>
      if isTokChar c then tokenRuns cs (c :: acc)
      else if acc.isEmpty then tokenRuns cs []
      else String.mk acc.reverse :: tokenRuns cs []

/-- `_tokens(s)`: lower-case, extract `[a-z0-9]+` runs, drop stop words. -/
def tokens (s : String) : List String :=
  (tokenRuns (s.data.map lowerChar) []).filter (fun t => ¬ t ∈ STOP)

/-- The distinct tokens of a string, modelling Python's `set` of tokens. -/
def tokenSet (s : String) : List String := (tokens s).dedup

/-- `_overlap_ratio(q, d)` as a real number:
`|qset ∩ dset| / max(1, |qset|)`, and `0.0` if either set is empty. -/
noncomputable def overlap_ratio (q d : String) : ℝ :=
  let qset := tokenSet q
  let dset := tokenSet d
  if qset.isEmpty || dset.isEmpty then 0
  else ((qset.filter (fun t => t ∈ dset)).length : ℝ) / (max 1 qset.length : ℕ)

/-- The logistic transform `1 / (1 + exp(-s))` applied to a logit. -/
noncomputable def sigmoid (s : ℝ) : ℝ := 1 / (1 + Real.exp (-s))

open Classical in
/-- `_normalize_scores(scores)`: if any score lies outside `[0, 1]`, treat
the whole vector as logits and apply the sigmoid; otherwise return the
vector unchanged. -/
noncomputable def normalize_scores (scores : List ℝ) : List ℝ :=
  if ∃ s ∈ scores, s < 0 ∨ 1 < s then scores.map sigmoid else scores

/-- Gating thresholds and reranker knobs read from `config['gating']`. -/
structure GatingConfig where
  tau : ℝ
  delta : ℝ
  ratio : ℝ
  min_overlap : ℝ
  keep_within : ℝ
  top_k_return : Nat

/-- The `diagnostics` dictionary built by `ReRankingTool._run`.  The five
latency fields are initialised to `0.0` and never updated by the source. -/
structure Diag where
  query : String
  returned_any : Bool
  n_candidates : Nat
  n_after_rerank : Nat
  top1_score : ℝ
  top2_score : ℝ
  margin : ℝ
  ratio : ℝ
  overlap : ℝ
  chunk_len_chars : Nat
  t_embed : ℝ
  t_retrieve : ℝ
  t_rerank : ℝ
  t_gate : ℝ
  t_total : ℝ
  config_sha : String
  gate_trigger : String

/-- The observable outcome of one `_run` invocation: the returned string,
the final state of the `diagnostics` dictionary, and the list of
diagnostics records printed to the `[diagnostics]` log line. -/
structure RunResult where
  output : String
  diag : Diag
  emitted : List Diag

/-- The `diagnostics` dictionary as initialised at the top of `_run`. -/
def initDiag (sha query : String) (documents : List String) : Diag :=
  { query := query
    returned_any := !documents.isEmpty
    n_candidates := documents.length
    n_after_rerank := 0
    top1_score := 0
    top2_score := 0
    margin := 0
    ratio := 0
    overlap := 0
    chunk_len_chars := 0
    t_embed := 0
    t_retrieve := 0
    t_rerank := 0
    t_gate := 0
    t_total := 0
    config_sha := sha
    gate_trigger := "" }

open Classical in
/-- Lines 129–197 of `_run`: sort the (document, score) pairs descending by
score (Python's stable `sorted` with `reverse=True`), fill the ranking
diagnostics, and run the four gates.  Only on acceptance is the
diagnostics record printed. -/
noncomputable def gateCascade (cfg : GatingConfig) (diag0 : Diag) (query : String)
    (documents : List String) (scores : List ℝ) : RunResult :=
  let ranked := List.insertionSort (fun a b : String × ℝ => b.2 ≤ a.2)
    (documents.zip scores)
  if h : ranked = [] then ⟨"", diag0, []⟩
  else
    let top1_doc := (ranked.head h).1
    let top1 := (ranked.head h).2
    let top2 := match ranked with
      | _ :: p :: _ => p.2
      | _ => 0
    let ov1 := overlap_ratio query top1_doc
    let diag1 := { diag0 with
      top1_score := top1
      top2_score := top2
      margin := top1 - top2
      ratio := top1 / max top2 (1 / 1000000)
      overlap := ov1
      chunk_len_chars := top1_doc.length
      n_after_rerank := ranked.length }
    if top1 < cfg.tau then
      ⟨"", { diag1 with gate_trigger := "tau" }, []⟩
    else if top1 - top2 < cfg.delta ∧ top1 / (top2 + 1 / 1000000) < cfg.ratio then
      ⟨"", { diag1 with gate_trigger := "margin_ratio" }, []⟩
    else if ov1 < cfg.min_overlap then
      ⟨"", { diag1 with gate_trigger := "overlap" }, []⟩
    else
      let kept0 := (ranked.filter
        (fun p => decide (top1 - cfg.keep_within ≤ p.2) && decide (cfg.tau ≤ p.2))).map Prod.fst
      let kept := if kept0 = [] then [top1_doc] else kept0
      let diagA := { diag1 with gate_trigger := "accepted" }
      ⟨String.intercalate "\n\n" (kept.take cfg.top_k_return), diagA, [diagA]⟩

/-- The raw score vector the cross-encoder returns for a query's candidate
pairs (`self.reranker.predict(pairs)`). -/
def rawScores (predict : List (String × String) → List (Option ℝ))
    (query : String) (documents : List String) : List (Option ℝ) :=
  predict (documents.map (fun d => (query, d)))

/-- The finite scores surviving the `np.isfinite` filter. -/
def finiteScores (predict : List (String × String) → List (Option ℝ))
    (query : String) (documents : List String) : List ℝ :=
  (rawScores predict query documents).filterMap id

open Classical in
/-- `ReRankingTool._run(query, documents)` with the cross-encoder call
abstracted as `predict`: empty-candidate early return, non-finite score
filtering, in-line sigmoid normalization, then the gate cascade. -/
noncomputable def run (cfg : GatingConfig) (sha : String)
    (predict : List (String × String) → List (Option ℝ))
    (query : String) (documents : List String) : RunResult :=
  let diag0 := initDiag sha query documents
  if documents = [] then ⟨"", diag0, []⟩
  else
    let finite := finiteScores predict query documents
    if finite = [] then
      ⟨"", { diag0 with gate_trigger := "non_finite_scores" }, []⟩
    else
      let scores := if ∃ s ∈ finite, s < 0 ∨ 1 < s then finite.map sigmoid else finite
      gateCascade cfg diag0 query documents scores

end Rerank

/-! ## Evaluation and tuning harness (`src/rag_harness.py`) -/

namespace Harness

/-- A JSON value that can appear in a query line's `label` field. -/
inductive JLabel
  | jint (n : Int)
  | jstr (s : String)
  deriving DecidableEq

/-- The slice of a per-query diagnostics row that
`_compute_aggregate_metrics` reads: `label` (taken verbatim from the
query JSON) and `returned_any`. -/
structure QueryMetrics where
  label : Option JLabel
  returned_any : Bool

/-- The classification part of the aggregate metrics dictionary. -/
structure AggMetrics where
  precision : ℚ
  recall' : ℚ
  f1 : ℚ
  false_positive_rate : ℚ
  true_positives : Nat
  false_positives : Nat
  true_negatives : Nat
  false_negatives : Nat

/-- `_compute_aggregate_metrics(per_query_metrics)`: count confusion cells
with `m.get("label") == 1` / `== 0`, then
`precision = tp / max(1, tp+fp)`, `recall = tp / max(1, tp+fn)`,
`f1 = 2·p·r / max(1e-9, p+r)`, `fp_rate = fp / max(1, fp+tn)`. -/
def compute_aggregate_metrics (ms : List QueryMetrics) : AggMetrics :=
  let tp := (ms.filter (fun m => decide (m.label = some (.jint 1)) && m.returned_any)).length
  let fp := (ms.filter (fun m => decide (m.label = some (.jint 0)) && m.returned_any)).length
  let fneg := (ms.filter (fun m => decide (m.label = some (.jint 1)) && !m.returned_any)).length
  let tn := (ms.filter (fun m => decide (m.label = some (.jint 0)) && !m.returned_any)).length
  let precision : ℚ := (tp : ℚ) / ((max 1 (tp + fp) : Nat) : ℚ)
  let recallV : ℚ := (tp : ℚ) / ((max 1 (tp + fneg) : Nat) : ℚ)
  let f1 : ℚ := 2 * precision * recallV / max (1 / 1000000000) (precision + recallV)
  let fpRate : ℚ := (fp : ℚ) / ((max 1 (fp + tn) : Nat) : ℚ)
  { precision := precision
    recall' := recallV
    f1 := f1
    false_positive_rate := fpRate
    true_positives := tp
    false_positives := fp
    true_negatives := tn
    false_negatives := fneg }

/-- Modelled from the spec: the aggregate confusion counts of §4.4, where a
query's label takes the documented values `positive`/`negative`
(`true_positive = label positive AND accepted`, and so on).  Returned as
`(tp, fp, fn, tn)`. -/
def specAggregateCounts (ms : List QueryMetrics) : Nat × Nat × Nat × Nat :=
  ((ms.filter (fun m => decide (m.label = some (.jstr "positive")) && m.returned_any)).length,
   (ms.filter (fun m => decide (m.label = some (.jstr "negative")) && m.returned_any)).length,
   (ms.filter (fun m => decide (m.label = some (.jstr "positive")) && !m.returned_any)).length,
   (ms.filter (fun m => decide (m.label = some (.jstr "negative")) && !m.returned_any)).length)

/-! ### Phase A grid construction and down-sampling (`RAGHarness.tune`) -/

/-- `k_values` of the Phase A search space. -/
def k_values : List Nat := [10, 15, 20, 30]

/-- `chunk_size_values` of the Phase A search space. -/
def chunk_size_values : List Nat := [800, 1000, 1200, 1600]

/-- `chunk_overlap_values` of the Phase A search space. -/
def chunk_overlap_values : List Nat := [100, 200, 300]

/-- `strategy_values` of the Phase A search space. -/
def strategy_values : List String := ["similarity", "mmr"]

/-- `mmr_lambda_values` of the Phase A search space, as exact rationals
(numerator over a fixed denominator of 10, avoiding float literals). -/
def mmr_lambda_values : List ℚ := [(3 : ℚ) / 10, (5 : ℚ) / 10, (7 : ℚ) / 10]

/-- A Phase A combination `(k, chunk_size, chunk_overlap, strategy,
mmr_lambda)`. -/
abbrev PhaseACombo := Nat × Nat × Nat × String × ℚ

/-- `itertools.product(k_values, chunk_size_values, chunk_overlap_values,
strategy_values, mmr_lambda_values)`, rightmost factor varying fastest. -/
def phaseACombinations : List PhaseACombo :=
  k_values.flatMap fun k =>
    chunk_size_values.flatMap fun cs =>
      chunk_overlap_values.flatMap fun co =>
        strategy_values.flatMap fun st =>
          mmr_lambda_values.map fun ml => (k, cs, co, st, ml)

/-- Python's `l[::step]` for `step ≥ 1`: the elements at indices
`0, step, 2·step, …`. -/
def everyNth {α : Type} (l : List α) (step : Nat) : List α :=
  (l.enum.filter (fun p => p.1 % step = 0)).map Prod.snd

/-- The budget guard of `RAGHarness.tune`: when the combination list
exceeds half the budget, slice it with stride
`max(1, len(combinations) // (budget // 2))`. -/
def downsampleCombos {α : Type} (combos : List α) (budget : Nat) : List α :=
  if combos.length > budget / 2 then
    everyNth combos (max 1 (combos.length / (budget / 2)))
  else combos

/-! ### Phase B best-configuration bookkeeping (`RAGHarness.tune`) -/

/-- The contents of the shared `config["gating"]` dictionary: one Phase B
combination `(tau, delta, ratio, min_overlap, keep_within)`. -/
structure BCombo where
  tau : ℚ
  delta : ℚ
  ratio : ℚ
  min_overlap : ℚ
  keep_within : ℚ
  deriving DecidableEq

/-- The loop state of the Phase B sweep.  `temp_config = self.config.copy()`
is a shallow copy, so every trial's `temp_config["gating"]` — and the
saved `best_config["gating"]` — alias one shared gating dictionary;
`gating` is that dictionary's current contents.  `best_set` records
whether `best_config` is not `None`. -/
structure PhaseBState where
  gating : BCombo
  best_f1 : ℚ
  best_set : Bool

/-- One Phase B iteration: write the trial's thresholds into the shared
gating dictionary, then update `best_f1`/`best_config` if
`f1_score > best_f1`. -/
def phaseBStep (st : PhaseBState) (trial : BCombo × ℚ) : PhaseBState :=
  let st1 := { st with gating := trial.1 }
  if st1.best_f1 < trial.2 then { st1 with best_f1 := trial.2, best_set := true }
  else st1

/-- The Phase B sweep over combinations paired with their simulated F1
scores, starting from `best_f1 = 0.0`, `best_config = None`, and the
gating dictionary's prior contents `g0`. -/
def runPhaseB (combos : List BCombo) (f1s : List ℚ) (g0 : BCombo) : PhaseBState :=
  (combos.zip f1s).foldl phaseBStep ⟨g0, 0, false⟩

/-- The `final_recommendation.recall` field of the tuning report:
`best_config["gating"]["min_overlap"] if best_config else 0.0`. -/
def finalRecommendationRecall (st : PhaseBState) : ℚ :=
  if st.best_set then st.gating.min_overlap else 0

/-- Modelled from the spec: Phase B's winning combination tracked by value
(the combination of the trial with the highest F1, first-found winning
ties), as the claim's reading of `best_config` intends. -/
def winningGating (combos : List BCombo) (f1s : List ℚ) : Option BCombo :=
  ((combos.zip f1s).foldl
    (fun acc t => if acc.2 < t.2 then (some t.1, t.2) else acc)
    ((none : Option BCombo), (0 : ℚ))).1

end Harness

/-! ## Helper lemmas -/

lemma checkKeys_ok_of_all (s : String) (sec : RagConfig.SectionMap) (keys : List String)
    (h : ∀ k ∈ keys, (sec.lookup k).isSome = true) :
    RagConfig.checkKeys s sec keys = .ok () := by
  induction keys with
  | nil => rfl
  | cons k ks ih =>
      simp only [RagConfig.checkKeys, h k (by simp)]
      exact ih (fun k' hk' => h k' (by simp [hk']))

lemma validateGo_cons_of_complete (config : RagConfig.ConfigMap) (s : String)
    (keys : List String) (rest : List (String × List String))
    (h : RagConfig.sectionComplete config (s, keys) = true) :
    RagConfig.validateGo config ((s, keys) :: rest) = RagConfig.validateGo config rest := by
  unfold RagConfig.sectionComplete at h
  cases hl : config.lookup s with
  | none => rw [hl] at h; simp at h
  | some sec =>
      rw [hl] at h
      simp only [List.all_eq_true] at h
      conv_lhs => rw [RagConfig.validateGo]
      rw [hl]
      simp only [checkKeys_ok_of_all s sec keys h]

lemma phaseBStep_gating (st : Harness.PhaseBState) (t : Harness.BCombo × ℚ) :
    (Harness.phaseBStep st t).gating = t.1 := by
  unfold Harness.phaseBStep
  by_cases h : st.best_f1 < t.2 <;> simp [h]

lemma foldl_phaseBStep_gating (l : List (Harness.BCombo × ℚ)) (s : Harness.PhaseBState) :
    (l.foldl Harness.phaseBStep s).gating = (l.map Prod.fst).getLastD s.gating := by
  induction l generalizing s with
  | nil => rfl
  | cons t ts ih =>
      simp only [List.foldl_cons, List.map_cons, List.getLastD_cons, ih, phaseBStep_gating]

/-! ## Claims -/

/-- C10: invoking the gate cascade with an empty documents list returns the
empty string without consulting the relevance model (the result is the same
for any two score functions) and without error; the diagnostics record keeps
`gate_trigger = ""`. -/
theorem c10_empty_documents (cfg : Rerank.GatingConfig) (sha : String)
    (predict predict' : List (String × String) → List (Option ℝ)) (query : String) :
    Rerank.run cfg sha predict query [] = Rerank.run cfg sha predict' query [] ∧
    (Rerank.run cfg sha predict query []).output = "" ∧
    (Rerank.run cfg sha predict query []).diag.gate_trigger = "" ∧
    (Rerank.run cfg sha predict query []).emitted = [] := by
  refine ⟨rfl, ?_, ?_, ?_⟩ <;> simp [Rerank.run, Rerank.initDiag]

/-- C8: `_compute_aggregate_metrics` counts confusion cells by comparing the
label to the integers 1/0, so on the documented label encoding
(`"positive"`/`"negative"`, as used by the repository's own
`test_rag_tool_verification.py`) an accepted positive query yields
`tp = 0` and `precision = 0`, while the spec's counting yields `tp = 1`. -/
theorem c8_label_encoding_bug :
    (Harness.compute_aggregate_metrics
      [⟨some (.jstr "positive"), true⟩]).true_positives = 0 ∧
    (Harness.compute_aggregate_metrics
      [⟨some (.jstr "positive"), true⟩]).precision = 0 ∧
    (Harness.specAggregateCounts [⟨some (.jstr "positive"), true⟩]).1 = 1 := by
  refine ⟨by decide, ?_, by decide⟩
  show ((0 : ℚ) / ((max 1 (0 + 0) : Nat) : ℚ) = 0)
  norm_num

set_option maxRecDepth 10000 in
/-- C4 (amended): whenever the Phase A grid exceeds half the budget it is
down-sampled deterministically by fixed-stride slicing with stride
`max 1 (n / (budget / 2))`; for the 288-combination grid and budget 50 this
keeps 27 combinations (slightly more than half the budget of 25). -/
theorem c4_downsample_amended :
    (∀ (α : Type) (l : List α) (b : Nat), l.length > b / 2 →
      Harness.downsampleCombos l b = Harness.everyNth l (max 1 (l.length / (b / 2)))) ∧
    (Harness.downsampleCombos Harness.phaseACombinations 50).length = 27 := by
  constructor
  · intro α l b h
    simp [Harness.downsampleCombos, if_pos h]
  · decide

set_option maxRecDepth 10000 in
/-- C4 witness: the general stride-slicing clause applied to the concrete
Phase A grid with budget 50. -/
theorem c4_witness :
    Harness.phaseACombinations.length > 50 / 2 ∧
    Harness.downsampleCombos Harness.phaseACombinations 50 =
      Harness.everyNth Harness.phaseACombinations
        (max 1 (Harness.phaseACombinations.length / (50 / 2))) :=
  ⟨by decide, c4_downsample_amended.1 _ Harness.phaseACombinations 50 (by decide)⟩

set_option maxRecDepth 10000 in
/-- C4 counterexample: the 288-combination Phase A grid with budget 50 is
down-sampled to 27 combinations, not to at most 25 as claimed. -/
theorem c4_counterexample :
    Harness.phaseACombinations.length = 288 ∧
    ¬ ((Harness.downsampleCombos Harness.phaseACombinations 50).length ≤ 25) := by
  constructor <;> decide

/-- C2 (amended): validation raises on the first missing section or key in
declaration order rather than listing all of them; in particular, a
configuration whose sections before `gating` are complete and which lacks
the `gating` section fails with a validation error naming `gating`. -/
theorem c2_validation_first_missing (config : RagConfig.ConfigMap)
    (hpre : ∀ p ∈ RagConfig.REQUIRED_CONFIG_KEYS.take 7,
      RagConfig.sectionComplete config p = true)
    (hg : config.lookup "gating" = none) :
    RagConfig.validate_config config = .error (.missingSection "gating") := by
  have h1 := hpre ("paths", ["kb_dir", "index_dir", "results_dir"]) (by decide)
  have h2 := hpre ("loader", ["globs", "exclude", "max_files"]) (by decide)
  have h3 := hpre ("splitter", ["chunk_size", "chunk_overlap"]) (by decide)
  have h4 := hpre ("embedder",
    ["backend", "model", "base_url", "use_gpu", "batch_size", "cosine_floor"]) (by decide)
  have h5 := hpre ("vector_store", ["type", "persist"]) (by decide)
  have h6 := hpre ("retriever", ["strategy", "k", "mmr_lambda"]) (by decide)
  have h7 := hpre ("reranker", ["model", "device", "max_length", "batch_size"]) (by decide)
  show RagConfig.validateGo config RagConfig.REQUIRED_CONFIG_KEYS = _
  rw [show RagConfig.REQUIRED_CONFIG_KEYS =
    ("paths", ["kb_dir", "index_dir", "results_dir"]) ::
    ("loader", ["globs", "exclude", "max_files"]) ::
    ("splitter", ["chunk_size", "chunk_overlap"]) ::
    ("embedder", ["backend", "model", "base_url", "use_gpu", "batch_size", "cosine_floor"]) ::
    ("vector_store", ["type", "persist"]) ::
    ("retriever", ["strategy", "k", "mmr_lambda"]) ::
    ("reranker", ["model", "device", "max_length", "batch_size"]) ::
    ("gating", ["tau", "delta", "ratio", "min_overlap", "keep_within", "top_k_return"]) ::
    [("preflight", ["force_cpu_embeddings", "force_cpu_reranker", "skip_ollama"])] from rfl]
  rw [validateGo_cons_of_complete config _ _ _ h1,
      validateGo_cons_of_complete config _ _ _ h2,
      validateGo_cons_of_complete config _ _ _ h3,
      validateGo_cons_of_complete config _ _ _ h4,
      validateGo_cons_of_complete config _ _ _ h5,
      validateGo_cons_of_complete config _ _ _ h6,
      validateGo_cons_of_complete config _ _ _ h7]
  conv_lhs => rw [RagConfig.validateGo]
  rw [hg]

/-- A complete configuration lacking only the `gating` and `preflight`
sections; every value is modelled as `null`, which validation ignores. -/
def cfgMissingGating : RagConfig.ConfigMap :=
  [("paths", [("kb_dir", .pnull), ("index_dir", .pnull), ("results_dir", .pnull)]),
   ("loader", [("globs", .pnull), ("exclude", .pnull), ("max_files", .pnull)]),
   ("splitter", [("chunk_size", .pnull), ("chunk_overlap", .pnull)]),
   ("embedder", [("backend", .pnull), ("model", .pnull), ("base_url", .pnull),
                 ("use_gpu", .pnull), ("batch_size", .pnull), ("cosine_floor", .pnull)]),
   ("vector_store", [("type", .pnull), ("persist", .pnull)]),
   ("retriever", [("strategy", .pnull), ("k", .pnull), ("mmr_lambda", .pnull)]),
   ("reranker", [("model", .pnull), ("device", .pnull), ("max_length", .pnull),
                 ("batch_size", .pnull)])]

/-- C2 witness: the amended theorem applied to a concrete configuration
missing exactly the `gating` section. -/
theorem c2_witness :
    (∀ p ∈ RagConfig.REQUIRED_CONFIG_KEYS.take 7,
      RagConfig.sectionComplete cfgMissingGating p = true) ∧
    cfgMissingGating.lookup "gating" = none ∧
    RagConfig.validate_config cfgMissingGating = .error (.missingSection "gating") :=
  ⟨by decide, by decide,
   c2_validation_first_missing cfgMissingGating (by decide) (by decide)⟩

/-- C2 counterexample: the empty configuration is missing `gating` (among
others), yet validation reports only the first missing section, `paths` —
the error does not list every missing section. -/
theorem c2_counterexample :
    RagConfig.validate_config [] = .error (.missingSection "paths") ∧
    ([] : RagConfig.ConfigMap).lookup "gating" = none ∧
    RagConfig.ConfigError.missingSection "paths" ≠ .missingSection "gating" := by
  refine ⟨rfl, rfl, by decide⟩

/-- C9 (amended): because every Phase B trial writes into the one gating
dictionary shared through `self.config.copy()` (a shallow copy), the
report's `recall` field — read from `best_config["gating"]["min_overlap"]`
— equals the `min_overlap` of the LAST evaluated combination whenever a
best configuration was selected, not the winning combination's value. -/
theorem c9_recall_last_combo (combos : List Harness.BCombo) (f1s : List ℚ)
    (g0 : Harness.BCombo) (hlen : combos.length = f1s.length) :
    Harness.finalRecommendationRecall (Harness.runPhaseB combos f1s g0) =
      if (Harness.runPhaseB combos f1s g0).best_set
      then (combos.getLastD g0).min_overlap else 0 := by
  have hg : (Harness.runPhaseB combos f1s g0).gating = combos.getLastD g0 := by
    unfold Harness.runPhaseB
    rw [foldl_phaseBStep_gating]
    rw [List.map_fst_zip combos f1s (le_of_eq hlen)]
  unfold Harness.finalRecommendationRecall
  rw [hg]

/-- C9 witness: the amended theorem at a concrete two-trial sweep. -/
theorem c9_witness :
    ([⟨1, 1, 1, 1, 1⟩, ⟨2, 2, 2, 2, 2⟩] : List Harness.BCombo).length =
      ([(2 : ℚ), 1] : List ℚ).length ∧
    Harness.finalRecommendationRecall
      (Harness.runPhaseB [⟨1, 1, 1, 1, 1⟩, ⟨2, 2, 2, 2, 2⟩] [(2 : ℚ), 1] ⟨0, 0, 0, 0, 0⟩) =
      if (Harness.runPhaseB [⟨1, 1, 1, 1, 1⟩, ⟨2, 2, 2, 2, 2⟩] [(2 : ℚ), 1]
            ⟨0, 0, 0, 0, 0⟩).best_set
      then (([⟨1, 1, 1, 1, 1⟩, ⟨2, 2, 2, 2, 2⟩] : List Harness.BCombo).getLastD
              ⟨0, 0, 0, 0, 0⟩).min_overlap
      else 0 :=
  ⟨rfl, c9_recall_last_combo _ _ _ rfl⟩

/-- C9 counterexample: with two trials whose F1 scores make the first trial
the winner, the reported `recall` is the second (last) trial's
`min_overlap` (2), while the winning configuration's `min_overlap` is 1. -/
theorem c9_counterexample :
    Harness.finalRecommendationRecall
      (Harness.runPhaseB [⟨0, 0, 0, 1, 0⟩, ⟨0, 0, 0, 2, 0⟩] [(2 : ℚ), 1] ⟨0, 0, 0, 0, 0⟩) = 2 ∧
    Harness.winningGating [⟨0, 0, 0, 1, 0⟩, ⟨0, 0, 0, 2, 0⟩] [(2 : ℚ), 1] =
      some ⟨0, 0, 0, 1, 0⟩ ∧
    (2 : ℚ) ≠ 1 := by
  refine ⟨?_, ?_, by norm_num⟩ <;>
    norm_num [Harness.finalRecommendationRecall, Harness.runPhaseB, Harness.phaseBStep,
      Harness.winningGating, List.foldl_cons]

lemma sigmoid_mem_Ioo (s : ℝ) : 0 < Rerank.sigmoid s ∧ Rerank.sigmoid s < 1 := by
  have h := Real.exp_pos (-s)
  constructor
  · rw [Rerank.sigmoid]
    positivity
  · rw [Rerank.sigmoid, div_lt_one (by linarith)]
    linarith

/-- C3 (amended): if any raw score lies outside `[0, 1]` the WHOLE vector —
including the scores already in range — is passed through the logistic
transform, and every output then lies in `(0, 1)`; only when all scores are
already within `[0, 1]` is the vector returned unchanged. -/
theorem c3_normalization_amended (scores : List ℝ) :
    ((∃ s ∈ scores, s < 0 ∨ 1 < s) →
      Rerank.normalize_scores scores = scores.map Rerank.sigmoid ∧
      ∀ x ∈ Rerank.normalize_scores scores, 0 < x ∧ x < 1) ∧
    ((∀ s ∈ scores, 0 ≤ s ∧ s ≤ 1) → Rerank.normalize_scores scores = scores) := by
  constructor
  · intro h
    have he : Rerank.normalize_scores scores = scores.map Rerank.sigmoid := by
      rw [Rerank.normalize_scores, if_pos h]
    refine ⟨he, ?_⟩
    rw [he]
    intro x hx
    rcases List.mem_map.mp hx with ⟨s, -, rfl⟩
    exact sigmoid_mem_Ioo s
  · intro h
    rw [Rerank.normalize_scores, if_neg]
    push_neg
    exact h

/-- C3 witness: the sigmoid clause of the amended theorem at the concrete
vector `[0, 2]`, which contains a score outside `[0, 1]`. -/
theorem c3_witness :
    (∃ s ∈ [(0 : ℝ), 2], s < 0 ∨ 1 < s) ∧
    (Rerank.normalize_scores [(0 : ℝ), 2] = [(0 : ℝ), 2].map Rerank.sigmoid ∧
      ∀ x ∈ Rerank.normalize_scores [(0 : ℝ), 2], 0 < x ∧ x < 1) :=
  ⟨⟨2, by simp, by norm_num⟩,
   (c3_normalization_amended [0, 2]).1 ⟨2, by simp, by norm_num⟩⟩

/-- C3 counterexample: in the vector `[0, 2]` the score `0` is already in
`[0, 1]`, yet normalization maps it to `sigmoid 0 = 1/2 ≠ 0` — in-range
scores are NOT returned unchanged when an out-of-range score is present. -/
theorem c3_counterexample :
    (0 ≤ (0 : ℝ) ∧ (0 : ℝ) ≤ 1) ∧
    (Rerank.normalize_scores [(0 : ℝ), 2]).head? = some (1 / 2) ∧
    ((1 : ℝ) / 2 ≠ 0) := by
  refine ⟨by norm_num, ?_, by norm_num⟩
  have he : Rerank.normalize_scores [(0 : ℝ), 2] = [(0 : ℝ), 2].map Rerank.sigmoid := by
    rw [Rerank.normalize_scores, if_pos ⟨2, by simp, by norm_num⟩]
  rw [he]
  simp [Rerank.sigmoid, Real.exp_zero]
  norm_num

/-- C6: when every raw relevance score is non-finite, the cascade rejects
before any gate fires: the returned string is empty and the diagnostics
record carries `gate_trigger = "non_finite_scores"`. -/
theorem c6_non_finite_rejection (cfg : Rerank.GatingConfig) (sha : String)
    (predict : List (String × String) → List (Option ℝ)) (query : String)
    (documents : List String) (hdocs : documents ≠ [])
    (hnf : ∀ s ∈ Rerank.rawScores predict query documents, s = none) :
    (Rerank.run cfg sha predict query documents).output = "" ∧
    (Rerank.run cfg sha predict query documents).diag.gate_trigger = "non_finite_scores" := by
  have hfin : Rerank.finiteScores predict query documents = [] := by
    rw [Rerank.finiteScores, List.filterMap_eq_nil_iff]
    intro a ha
    simp [hnf a ha]
  constructor <;>
  · simp only [Rerank.run]
    rw [if_neg hdocs, hfin]
    simp

/-- Gating thresholds used by the concrete witness runs:
τ = 0.5, δ = 0.05, ρ = 1.15, min_overlap = 0.2, keep_within = 0.02,
top_k_return = 3. -/
noncomputable def testGating : Rerank.GatingConfig :=
  ⟨1 / 2, 1 / 20, 23 / 20, 1 / 5, 1 / 50, 3⟩

/-- C6 witness: the rejection theorem applied to a concrete two-document
query whose scores are all NaN. -/
theorem c6_witness :
    (["doc a", "doc b"] : List String) ≠ [] ∧
    (∀ s ∈ Rerank.rawScores (fun _ => [none, none]) "q" ["doc a", "doc b"], s = none) ∧
    ((Rerank.run testGating "sha" (fun _ => [none, none]) "q" ["doc a", "doc b"]).output = "" ∧
     (Rerank.run testGating "sha" (fun _ => [none, none]) "q"
        ["doc a", "doc b"]).diag.gate_trigger = "non_finite_scores") :=
  ⟨by simp, by simp [Rerank.rawScores],
   c6_non_finite_rejection testGating "sha" _ "q" ["doc a", "doc b"] (by simp)
     (by simp [Rerank.rawScores])⟩

lemma insertionSort_ne_nil (documents : List String) (scores : List ℝ)
    (hz : documents.zip scores ≠ []) :
    List.insertionSort (fun a b : String × ℝ => b.2 ≤ a.2) (documents.zip scores) ≠ [] := by
  intro h
  apply hz
  have hp := List.perm_insertionSort (fun a b : String × ℝ => b.2 ≤ a.2) (documents.zip scores)
  rw [h] at hp
  exact (hp.symm).eq_nil

lemma zip_ne_nil_of_ne_nil {l : List String} {s : List ℝ}
    (hl : l ≠ []) (hs : s ≠ []) : l.zip s ≠ [] := by
  have h1 : 0 < l.length := List.length_pos.mpr hl
  have h2 : 0 < s.length := List.length_pos.mpr hs
  have h3 : 0 < (l.zip s).length := by
    rw [List.length_zip]
    exact lt_min h1 h2
  exact List.ne_nil_of_length_pos h3

lemma gateCascade_trigger_emitted (cfg : Rerank.GatingConfig) (diag0 : Rerank.Diag)
    (query : String) (documents : List String) (scores : List ℝ)
    (hz : documents.zip scores ≠ []) :
    (Rerank.gateCascade cfg diag0 query documents scores).diag.gate_trigger ∈
      (["tau", "margin_ratio", "overlap", "accepted"] : List String) ∧
    (Rerank.gateCascade cfg diag0 query documents scores).emitted =
      (if (Rerank.gateCascade cfg diag0 query documents scores).diag.gate_trigger = "accepted"
       then [(Rerank.gateCascade cfg diag0 query documents scores).diag] else []) := by
  have hr := insertionSort_ne_nil documents scores hz
  simp only [Rerank.gateCascade]
  rw [dif_neg hr]
  split_ifs <;> simp_all

/-- C1 (amended): for every invocation on a non-empty document list the
diagnostics record is produced with `gate_trigger` identifying the step
that terminated the pipeline (`non_finite_scores`, `tau`, `margin_ratio`,
`overlap`, or `accepted`), but the record is printed to the diagnostics
log only when the outcome is `accepted` — rejections leave the log empty. -/
theorem c1_diag_trigger_emission (cfg : Rerank.GatingConfig) (sha : String)
    (predict : List (String × String) → List (Option ℝ)) (query : String)
    (documents : List String) (hdocs : documents ≠ []) :
    (Rerank.run cfg sha predict query documents).diag.gate_trigger ∈
      (["non_finite_scores", "tau", "margin_ratio", "overlap", "accepted"] : List String) ∧
    (Rerank.run cfg sha predict query documents).emitted =
      (if (Rerank.run cfg sha predict query documents).diag.gate_trigger = "accepted"
       then [(Rerank.run cfg sha predict query documents).diag] else []) := by
  by_cases hfin : Rerank.finiteScores predict query documents = []
  · constructor <;>
    · simp only [Rerank.run]
      rw [if_neg hdocs, hfin]
      simp
  · have hs : (if ∃ s ∈ Rerank.finiteScores predict query documents, s < 0 ∨ 1 < s
        then (Rerank.finiteScores predict query documents).map Rerank.sigmoid
        else Rerank.finiteScores predict query documents) ≠ [] := by
      split_ifs
      · simpa using hfin
      · exact hfin
    have hz := zip_ne_nil_of_ne_nil hdocs hs
    have hgc := gateCascade_trigger_emitted cfg (Rerank.initDiag sha query documents)
      query documents _ hz
    have hrun : Rerank.run cfg sha predict query documents =
        Rerank.gateCascade cfg (Rerank.initDiag sha query documents) query documents
          (if ∃ s ∈ Rerank.finiteScores predict query documents, s < 0 ∨ 1 < s
           then (Rerank.finiteScores predict query documents).map Rerank.sigmoid
           else Rerank.finiteScores predict query documents) := by
      simp only [Rerank.run]
      rw [if_neg hdocs, if_neg hfin]
    rw [hrun]
    exact ⟨List.mem_cons_of_mem _ hgc.1, hgc.2⟩

/-- C1 witness: the amended theorem at a concrete one-document invocation. -/
theorem c1_witness :
    (["beta"] : List String) ≠ [] ∧
    ((Rerank.run testGating "sha" (fun _ => [some ((1 : ℝ) / 10)]) "alpha"
        ["beta"]).diag.gate_trigger ∈
      (["non_finite_scores", "tau", "margin_ratio", "overlap", "accepted"] : List String) ∧
     (Rerank.run testGating "sha" (fun _ => [some ((1 : ℝ) / 10)]) "alpha" ["beta"]).emitted =
      (if (Rerank.run testGating "sha" (fun _ => [some ((1 : ℝ) / 10)]) "alpha"
            ["beta"]).diag.gate_trigger = "accepted"
       then [(Rerank.run testGating "sha" (fun _ => [some ((1 : ℝ) / 10)]) "alpha"
              ["beta"]).diag] else [])) :=
  ⟨by simp, c1_diag_trigger_emission testGating "sha" _ "alpha" ["beta"] (by simp)⟩

/-- C1 counterexample: a concrete invocation rejected by the τ gate fills
`gate_trigger = "tau"` but emits no diagnostics record at all — the claim
that diagnostics are emitted on every rejection fails on this input. -/
theorem c1_counterexample :
    (Rerank.run testGating "sha" (fun _ => [some ((1 : ℝ) / 10)]) "alpha"
      ["beta"]).diag.gate_trigger = "tau" ∧
    (Rerank.run testGating "sha" (fun _ => [some ((1 : ℝ) / 10)]) "alpha"
      ["beta"]).emitted = [] := by
  have hfin : Rerank.finiteScores (fun _ => [some ((1 : ℝ) / 10)]) "alpha" ["beta"] =
      [(1 : ℝ) / 10] := by
    simp [Rerank.finiteScores, Rerank.rawScores]
  have hno : ¬ ∃ s ∈ [(1 : ℝ) / 10], s < 0 ∨ 1 < s := by
    push_neg
    intro s hs
    simp only [List.mem_singleton] at hs
    subst hs
    constructor <;> norm_num
  have hsort : List.insertionSort (fun a b : String × ℝ => b.2 ≤ a.2)
      ((["beta"] : List String).zip [(1 : ℝ) / 10]) = [("beta", (1 : ℝ) / 10)] := rfl
  constructor <;>
  · simp only [Rerank.run]
    rw [if_neg (by simp : ¬(["beta"] : List String) = []), hfin,
        if_neg (by simp : ¬([(1 : ℝ) / 10] : List ℝ) = []), if_neg hno]
    simp only [Rerank.gateCascade, hsort]
    rw [dif_neg (by simp : ¬([("beta", (1 : ℝ) / 10)] : List (String × ℝ)) = [])]
    simp only [List.head_cons]
    rw [if_pos (by norm_num [testGating] : (("beta", (1 : ℝ) / 10) : String × ℝ).2 < testGating.tau)]

lemma gateCascade_margin_ratio (cfg : Rerank.GatingConfig) (diag0 : Rerank.Diag)
    (query : String) (documents : List String) (scores : List ℝ)
    (hz : documents.zip scores ≠ []) :
    ((Rerank.gateCascade cfg diag0 query documents scores).diag.gate_trigger = "margin_ratio" ↔
      (cfg.tau ≤ (Rerank.gateCascade cfg diag0 query documents scores).diag.top1_score ∧
       (Rerank.gateCascade cfg diag0 query documents scores).diag.top1_score -
         (Rerank.gateCascade cfg diag0 query documents scores).diag.top2_score < cfg.delta ∧
       (Rerank.gateCascade cfg diag0 query documents scores).diag.top1_score /
         ((Rerank.gateCascade cfg diag0 query documents scores).diag.top2_score + 1 / 1000000) <
         cfg.ratio)) ∧
    ((Rerank.gateCascade cfg diag0 query documents scores).diag.top1_score = 9 / 10 →
     (Rerank.gateCascade cfg diag0 query documents scores).diag.top2_score = 3 / 10 →
     cfg.tau = 1 / 2 → cfg.delta = 1 / 20 → cfg.ratio = 23 / 20 →
     cfg.min_overlap ≤ (Rerank.gateCascade cfg diag0 query documents scores).diag.overlap →
     (Rerank.gateCascade cfg diag0 query documents scores).diag.gate_trigger = "accepted") := by
  have hr := insertionSort_ne_nil documents scores hz
  simp only [Rerank.gateCascade]
  rw [dif_neg hr]
  split_ifs with h1 h2 h3 <;> dsimp only <;> constructor
  · constructor
    · intro h
      exact absurd h (by simp)
    · rintro ⟨hle, -, -⟩
      exact absurd h1 (not_lt.mpr hle)
  · intro htop1 _ htau _ _ _
    rw [htop1, htau] at h1
    norm_num at h1
  · exact ⟨fun _ => ⟨not_lt.mp h1, h2.1, h2.2⟩, fun _ => rfl⟩
  · intro htop1 htop2 _ hdelta _ _
    rw [htop1, htop2, hdelta] at h2
    rcases h2 with ⟨hm, -⟩
    norm_num at hm
  · constructor
    · intro h
      exact absurd h (by simp)
    · rintro ⟨-, hm, hrt⟩
      exact absurd ⟨hm, hrt⟩ h2
  · intro _ _ _ _ _ hov
    exact absurd h3 (not_lt.mpr hov)
  · constructor
    · intro h
      exact absurd h (by simp)
    · rintro ⟨-, hm, hrt⟩
      exact absurd ⟨hm, hrt⟩ h2
  · intro _ _ _ _ _ _
    rfl
  · constructor
    · intro h
      exact absurd h (by simp)
    · rintro ⟨-, hm, hrt⟩
      exact absurd ⟨hm, hrt⟩ h2
  · intro _ _ _ _ _ _
    rfl

/-- C5: gate 2 rejects with `margin_ratio` exactly when the query passed
gate 1 (τ ≤ top1) AND `top1 − top2 < δ` AND `top1 / (top2 + ε) < ρ` — a
sufficient margin or a sufficient ratio alone passes the gate; and in
Scenario B (top1 = 0.9, top2 = 0.3, τ = 0.5, δ = 0.05, ρ = 1.15), if the
top candidate's overlap is at least `min_overlap`, the query is accepted. -/
theorem c5_margin_ratio_gate (cfg : Rerank.GatingConfig) (sha : String)
    (predict : List (String × String) → List (Option ℝ)) (query : String)
    (documents : List String) (hdocs : documents ≠ [])
    (hfin : Rerank.finiteScores predict query documents ≠ []) :
    ((Rerank.run cfg sha predict query documents).diag.gate_trigger = "margin_ratio" ↔
      (cfg.tau ≤ (Rerank.run cfg sha predict query documents).diag.top1_score ∧
       (Rerank.run cfg sha predict query documents).diag.top1_score -
         (Rerank.run cfg sha predict query documents).diag.top2_score < cfg.delta ∧
       (Rerank.run cfg sha predict query documents).diag.top1_score /
         ((Rerank.run cfg sha predict query documents).diag.top2_score + 1 / 1000000) <
         cfg.ratio)) ∧
    ((Rerank.run cfg sha predict query documents).diag.top1_score = 9 / 10 →
     (Rerank.run cfg sha predict query documents).diag.top2_score = 3 / 10 →
     cfg.tau = 1 / 2 → cfg.delta = 1 / 20 → cfg.ratio = 23 / 20 →
     cfg.min_overlap ≤ (Rerank.run cfg sha predict query documents).diag.overlap →
     (Rerank.run cfg sha predict query documents).diag.gate_trigger = "accepted") := by
  have hs : (if ∃ s ∈ Rerank.finiteScores predict query documents, s < 0 ∨ 1 < s
      then (Rerank.finiteScores predict query documents).map Rerank.sigmoid
      else Rerank.finiteScores predict query documents) ≠ [] := by
    split_ifs
    · simpa using hfin
    · exact hfin
  have hz := zip_ne_nil_of_ne_nil hdocs hs
  have hrun : Rerank.run cfg sha predict query documents =
      Rerank.gateCascade cfg (Rerank.initDiag sha query documents) query documents
        (if ∃ s ∈ Rerank.finiteScores predict query documents, s < 0 ∨ 1 < s
         then (Rerank.finiteScores predict query documents).map Rerank.sigmoid
         else Rerank.finiteScores predict query documents) := by
    simp only [Rerank.run]
    rw [if_neg hdocs, if_neg hfin]
  rw [hrun]
  exact gateCascade_margin_ratio cfg (Rerank.initDiag sha query documents) query documents _ hz

/-- C5 witness: the theorem instantiated at a concrete two-document
invocation with scores 0.9 and 0.3. -/
theorem c5_witness :
    (["alpha beta gamma", "delta"] : List String) ≠ [] ∧
    Rerank.finiteScores (fun _ => [some ((9 : ℝ) / 10), some ((3 : ℝ) / 10)]) "alpha beta"
      ["alpha beta gamma", "delta"] ≠ [] ∧
    (((Rerank.run testGating "sha" (fun _ => [some ((9 : ℝ) / 10), some ((3 : ℝ) / 10)])
        "alpha beta" ["alpha beta gamma", "delta"]).diag.gate_trigger = "margin_ratio" ↔
      (testGating.tau ≤ (Rerank.run testGating "sha"
          (fun _ => [some ((9 : ℝ) / 10), some ((3 : ℝ) / 10)]) "alpha beta"
          ["alpha beta gamma", "delta"]).diag.top1_score ∧
       (Rerank.run testGating "sha" (fun _ => [some ((9 : ℝ) / 10), some ((3 : ℝ) / 10)])
          "alpha beta" ["alpha beta gamma", "delta"]).diag.top1_score -
         (Rerank.run testGating "sha" (fun _ => [some ((9 : ℝ) / 10), some ((3 : ℝ) / 10)])
          "alpha beta" ["alpha beta gamma", "delta"]).diag.top2_score < testGating.delta ∧
       (Rerank.run testGating "sha" (fun _ => [some ((9 : ℝ) / 10), some ((3 : ℝ) / 10)])
          "alpha beta" ["alpha beta gamma", "delta"]).diag.top1_score /
         ((Rerank.run testGating "sha" (fun _ => [some ((9 : ℝ) / 10), some ((3 : ℝ) / 10)])
          "alpha beta" ["alpha beta gamma", "delta"]).diag.top2_score + 1 / 1000000) <
         testGating.ratio)) ∧
     ((Rerank.run testGating "sha" (fun _ => [some ((9 : ℝ) / 10), some ((3 : ℝ) / 10)])
        "alpha beta" ["alpha beta gamma", "delta"]).diag.top1_score = 9 / 10 →
      (Rerank.run testGating "sha" (fun _ => [some ((9 : ℝ) / 10), some ((3 : ℝ) / 10)])
        "alpha beta" ["alpha beta gamma", "delta"]).diag.top2_score = 3 / 10 →
      testGating.tau = 1 / 2 → testGating.delta = 1 / 20 → testGating.ratio = 23 / 20 →
      testGating.min_overlap ≤ (Rerank.run testGating "sha"
          (fun _ => [some ((9 : ℝ) / 10), some ((3 : ℝ) / 10)]) "alpha beta"
          ["alpha beta gamma", "delta"]).diag.overlap →
      (Rerank.run testGating "sha" (fun _ => [some ((9 : ℝ) / 10), some ((3 : ℝ) / 10)])
        "alpha beta" ["alpha beta gamma", "delta"]).diag.gate_trigger = "accepted")) :=
  ⟨by simp, by simp [Rerank.finiteScores, Rerank.rawScores],
   c5_margin_ratio_gate testGating "sha" _ "alpha beta" ["alpha beta gamma", "delta"]
     (by simp) (by simp [Rerank.finiteScores, Rerank.rawScores])⟩

instance instKeyLeTotal {α : Type} : IsTotal (String × α) (fun a b => a.1 ≤ b.1) :=
  ⟨fun a b => le_total a.1 b.1⟩

instance instKeyLeTrans {α : Type} : IsTrans (String × α) (fun a b => a.1 ≤ b.1) :=
  ⟨fun _ _ _ h h' => le_trans h h'⟩

instance instKeyLtAntisymm {α : Type} : IsAntisymm (String × α) (fun a b => a.1 < b.1) :=
  ⟨fun _ _ h h' => absurd (lt_trans h h') (lt_irrefl _)⟩

lemma sortByKey_pairwise_lt {α : Type} (l : List (String × α))
    (hnd : ((RagConfig.sortByKey l).map Prod.fst).Nodup) :
    List.Pairwise (fun a b : String × α => a.1 < b.1) (RagConfig.sortByKey l) := by
  have hs : List.Sorted (fun a b : String × α => a.1 ≤ b.1) (RagConfig.sortByKey l) :=
    List.sorted_insertionSort _ _
  have hne : List.Pairwise (fun a b : String × α => a.1 ≠ b.1) (RagConfig.sortByKey l) :=
    (List.pairwise_map).mp hnd
  exact (hs.and hne).imp (fun h => lt_of_le_of_ne h.1 h.2)

lemma sortByKey_eq_of_perm {α : Type} (l1 l2 : List (String × α))
    (hp : l1.Perm l2) (hnd : (l1.map Prod.fst).Nodup) :
    RagConfig.sortByKey l1 = RagConfig.sortByKey l2 := by
  have hp1 : (RagConfig.sortByKey l1).Perm l1 := List.perm_insertionSort _ _
  have hp2 : (RagConfig.sortByKey l2).Perm l2 := List.perm_insertionSort _ _
  have hnd1 : ((RagConfig.sortByKey l1).map Prod.fst).Nodup :=
    ((hp1.map Prod.fst).nodup_iff).mpr hnd
  have hnd2 : ((RagConfig.sortByKey l2).map Prod.fst).Nodup :=
    ((hp2.map Prod.fst).nodup_iff).mpr (((hp.map Prod.fst).nodup_iff).mp hnd)
  exact List.eq_of_perm_of_sorted (hp1.trans (hp.trans hp2.symm))
    (sortByKey_pairwise_lt l1 hnd1) (sortByKey_pairwise_lt l2 hnd2)

/-- C7: the configuration fingerprint is a pure function of configuration
content — invoking it twice on the same configuration yields the same hash,
and two configuration mappings with identical key-value pairs (a
permutation, with distinct keys as in any mapping) but different insertion
order produce identical fingerprints, because the JSON dump sorts keys. -/
theorem c7_fingerprint_content_pure :
    (∀ c : RagConfig.ConfigMap,
      RagConfig.compute_config_sha c = RagConfig.compute_config_sha c) ∧
    (∀ c1 c2 : RagConfig.ConfigMap, c1.Perm c2 → (c1.map Prod.fst).Nodup →
      RagConfig.compute_config_sha c1 = RagConfig.compute_config_sha c2) := by
  refine ⟨fun c => rfl, fun c1 c2 hp hnd => ?_⟩
  unfold RagConfig.compute_config_sha RagConfig.dumpsConfig
  rw [sortByKey_eq_of_perm c1 c2 hp hnd]

/-- C7 witness: the order-independence clause at two concrete two-section
configurations that are key-permutations of each other. -/
theorem c7_witness :
    ([("b", [("y", RagConfig.PrimVal.pbool true)]),
      ("a", [("x", RagConfig.PrimVal.pstr "v")])] : RagConfig.ConfigMap).Perm
      [("a", [("x", RagConfig.PrimVal.pstr "v")]),
       ("b", [("y", RagConfig.PrimVal.pbool true)])] ∧
    (([("b", [("y", RagConfig.PrimVal.pbool true)]),
       ("a", [("x", RagConfig.PrimVal.pstr "v")])] : RagConfig.ConfigMap).map Prod.fst).Nodup ∧
    RagConfig.compute_config_sha
      [("b", [("y", RagConfig.PrimVal.pbool true)]),
       ("a", [("x", RagConfig.PrimVal.pstr "v")])] =
    RagConfig.compute_config_sha
      [("a", [("x", RagConfig.PrimVal.pstr "v")]),
       ("b", [("y", RagConfig.PrimVal.pbool true)])] :=
  ⟨by decide, by decide,
   c7_fingerprint_content_pure.2 _ _ (by decide) (by decide)⟩
